import Mathlib

/-!
Shallow embedding of `feature_examples/tensorflow/inspecting_tensors/outfeed_optimizer.py`
(the `OutfeedOptimizer` wrapper and the `OutfeedOptimizerMode` enumeration), together with a
spec-derived model of the `MaybeOutfeedQueue` collaborator whose source file is not part of
the sources at hand.

Graph construction is modelled as pure state passing: the queue's mutable state is threaded
explicitly through the wrapper's methods, and each method additionally reports the trace of
`maybe_outfeed` calls (the "offers") it made, so that temporal claims about the offer/commit
sequence can be stated.  TensorFlow tensors are modelled by the inductive `GradExpr`: a base
tensor, or an identity op created under `ops.control_dependencies([enqueue])`, which records
the enqueue op's payload as its control dependency.
-/

namespace GcOutfeed

/-- A trainable variable, identified by its name (`tf.Variable.name`). -/
structure Variable where
  name : String
  deriving DecidableEq, Repr

/-- A gradient tensor in the constructed graph: either a base tensor produced by the
wrapped optimizer, or `array_ops.identity` of a tensor created inside
`ops.control_dependencies([enqueue])`, carrying the enqueue op's payload
(the dictionary of key/value pairs committed to the outfeed queue). -/
inductive GradExpr where
  | base : Nat → GradExpr
  | identDep : GradExpr → List (String × GradExpr) → GradExpr

/-- The numerical value of a gradient tensor: `array_ops.identity` is a pass-through. -/
def gradValue : GradExpr → Nat
  | .base n => n
  | .identDep g _ => gradValue g

/-- Modelled from the spec: the `MaybeOutfeedQueue` collaborator (its defining file is not
among the sources; only its caller `outfeed_optimizer.py` is).  Per the spec it is "an
external sink accepting a mapping from name to value" whose "filtering policy (which names
pass) is owned by the queue itself", exposing "an attempt-to-include operation, a commit
operation (returns whether anything was committed), and an `was anything enqueued` flag".
Filtering is a "string-match against a filter set supplied when the queue was built"; per
the caller's docstring "the variable name must include one of the filter elements".
`vals` is the insertion-ordered mapping accumulated by the attempt-to-include operation. -/
structure MaybeOutfeedQueue where
  filters : Option (List String)
  vals : List (String × GradExpr)
  enqueued : Bool

/-- Modelled from the spec: whether a key passes the queue's filter set — with no filter
set every key passes, otherwise some filter element must occur as a substring of the key. -/
def keyPassesFilter (filters : Option (List String)) (key : String) : Bool :=
  match filters with
  | none => true
  | some fs => fs.any (fun f => decide (f.data <:+: key.data))

/-- Modelled from the spec: the attempt-to-include operation `maybe_outfeed(key, value)` —
the pair is recorded iff the key passes the queue's filter set. -/
def maybe_outfeed (q : MaybeOutfeedQueue) (key : String) (value : GradExpr) :
    MaybeOutfeedQueue :=
  if keyPassesFilter q.filters key then { q with vals := q.vals ++ [(key, value)] }
  else q

/-- Modelled from the spec: the commit operation `maybe_enqueue()` — if nothing was
recorded it returns `none` (nothing committed); otherwise it returns the enqueue op
carrying the recorded mapping and sets the `enqueued` flag. -/
def maybe_enqueue (q : MaybeOutfeedQueue) :
    Option (List (String × GradExpr)) × MaybeOutfeedQueue :=
  if q.vals.isEmpty then (none, q)
  else (some q.vals, { q with enqueued := true })

/-- Embeds `OutfeedOptimizerMode`: the two-valued enumeration controlling when gradients are
enqueued. -/
inductive OutfeedOptimizerMode where
  | AFTER_COMPUTE
  | BEFORE_APPLY
  deriving DecidableEq, Repr

/-- Errors raised by an optimizer's `apply_gradients`; malformed gradient/variable pairs
raise an invalid-argument-class error. -/
inductive OptError where
  | invalidArgument : String → OptError
  deriving DecidableEq, Repr

/-- The interface of the wrapped `tf.compat.v1.train.Optimizer`: gradient computation,
gradient application (fallible: malformed pairs raise), and the four accessors.
`applyGradients` returns the update action, abstracted as a `Nat` identifier that is a
function of the gradient/variable pairs, the optional global step and the optional name. -/
structure WrappedOptimizer where
  computeGradients : Nat → Option (List Variable) → List (GradExpr × Variable)
  applyGradients : List (GradExpr × Variable) → Option Nat → Option String →
    Except OptError Nat
  getName : String
  getSlot : Variable → String → Nat
  getSlotNames : List String
  variablesList : List Variable

/-- The `OutfeedOptimizer`'s configuration, fixed by `__init__`: the wrapped optimizer,
the mode, and the name passed to the base-class constructor.  The outfeed queue reference
is modelled by threading the queue's state explicitly through each method. -/
structure OutfeedOptimizer where
  wrapped_optimizer : WrappedOptimizer
  outfeed_optimizer_mode : OutfeedOptimizerMode
  opt_name : String

/-- Embeds `OutfeedOptimizer.__init__` with all arguments explicit. -/
def OutfeedOptimizer.init (wrapped_optimizer : WrappedOptimizer)
    (outfeed_optimizer_mode : OutfeedOptimizerMode) (name : String) : OutfeedOptimizer :=
  { wrapped_optimizer := wrapped_optimizer
    outfeed_optimizer_mode := outfeed_optimizer_mode
    opt_name := name }

/-- Embeds `OutfeedOptimizer.__init__` with Python's default arguments
(`outfeed_optimizer_mode=OutfeedOptimizerMode.BEFORE_APPLY`, `name="OutfeedOptimizer"`). -/
def OutfeedOptimizer.initDefault (wrapped_optimizer : WrappedOptimizer) : OutfeedOptimizer :=
  OutfeedOptimizer.init wrapped_optimizer OutfeedOptimizerMode.BEFORE_APPLY
    "OutfeedOptimizer"

/-- Result of `OutfeedOptimizer._maybe_enqueue`: the trace of `maybe_outfeed` calls made
(in call order), the value returned by `maybe_enqueue` (the enqueue op, or `none`), and
the queue's state afterwards. -/
structure EnqueueResult where
  offers : List (String × GradExpr)
  enqueueOp : Option (List (String × GradExpr))
  queue : MaybeOutfeedQueue

/-- Embeds `OutfeedOptimizer._maybe_enqueue`: for each `(g, v)` in `reversed(grads_and_vars)`,
call `maybe_outfeed(v.name + "_grad", g)`, then return `maybe_enqueue()`. -/
def maybeEnqueueAll (q : MaybeOutfeedQueue)
    (grads_and_vars : List (GradExpr × Variable)) : EnqueueResult :=
  let offers := grads_and_vars.reverse.map (fun gv => (gv.2.name ++ "_grad", gv.1))
  let q1 := offers.foldl (fun qq kv => maybe_outfeed qq kv.1 kv.2) q
  let r := maybe_enqueue q1
  { offers := offers, enqueueOp := r.1, queue := r.2 }

/-- Result of `OutfeedOptimizer.compute_gradients`: the returned list of
(gradient, variable) pairs, the queue's state afterwards, and the trace of offers made. -/
structure ComputeResult where
  grads_and_vars : List (GradExpr × Variable)
  queue : MaybeOutfeedQueue
  offers : List (String × GradExpr)

/-- Embeds `OutfeedOptimizer.compute_gradients`: delegate to the wrapped optimizer; in
`AFTER_COMPUTE` mode run `_maybe_enqueue` and, if the enqueue op is truthy, return the
pairs with the gradient at index 0 replaced by `array_ops.identity` created under
`ops.control_dependencies([enqueue])`; otherwise return the pairs unchanged. -/
def compute_gradients (opt : OutfeedOptimizer) (q : MaybeOutfeedQueue) (loss : Nat)
    (var_list : Option (List Variable)) : ComputeResult :=
  let grads_and_vars := opt.wrapped_optimizer.computeGradients loss var_list
  if opt.outfeed_optimizer_mode = OutfeedOptimizerMode.AFTER_COMPUTE then
    let r := maybeEnqueueAll q grads_and_vars
    match r.enqueueOp with
    | some enqueue =>
      { grads_and_vars :=
          grads_and_vars.enum.map
            (fun p => (if p.1 = 0 then GradExpr.identDep p.2.1 enqueue else p.2.1, p.2.2))
        queue := r.queue
        offers := r.offers }
    | none =>
      { grads_and_vars := grads_and_vars, queue := r.queue, offers := r.offers }
  else
    { grads_and_vars := grads_and_vars, queue := q, offers := [] }

/-- The operation returned by `apply_gradients`: the wrapped optimizer's update action
together with the control dependencies attached to it by the surrounding
`ops.control_dependencies` context (the payloads of the enqueue ops it depends on). -/
structure TrainOp where
  action : Nat
  ctrlDeps : List (List (String × GradExpr))

/-- Result of `OutfeedOptimizer.apply_gradients`: the returned operation (or the error
raised by the wrapped optimizer), the queue's state afterwards, and the trace of offers. -/
structure ApplyResult where
  res : Except OptError TrainOp
  queue : MaybeOutfeedQueue
  offers : List (String × GradExpr)

/-- Embeds `OutfeedOptimizer.apply_gradients`: in `BEFORE_APPLY` mode run `_maybe_enqueue` and,
if the enqueue op is truthy, call the wrapped optimizer's `apply_gradients` under
`ops.control_dependencies([enqueue])`; in every other case call it directly. -/
def apply_gradients (opt : OutfeedOptimizer) (q : MaybeOutfeedQueue)
    (grads_and_vars : List (GradExpr × Variable)) (global_step : Option Nat)
    (name : Option String) : ApplyResult :=
  if opt.outfeed_optimizer_mode = OutfeedOptimizerMode.BEFORE_APPLY then
    let r := maybeEnqueueAll q grads_and_vars
    match r.enqueueOp with
    | some enqueue =>
      { res := (opt.wrapped_optimizer.applyGradients grads_and_vars global_step name).map
          (fun a => { action := a, ctrlDeps := [enqueue] })
        queue := r.queue
        offers := r.offers }
    | none =>
      { res := (opt.wrapped_optimizer.applyGradients grads_and_vars global_step name).map
          (fun a => { action := a, ctrlDeps := [] })
        queue := r.queue
        offers := r.offers }
  else
    { res := (opt.wrapped_optimizer.applyGradients grads_and_vars global_step name).map
        (fun a => { action := a, ctrlDeps := [] })
      queue := q
      offers := [] }

/-- Embeds `OutfeedOptimizer.get_name`: delegates to the wrapped optimizer. -/
def get_name (opt : OutfeedOptimizer) : String :=
  opt.wrapped_optimizer.getName

/-- Embeds `OutfeedOptimizer.get_slot`: delegates to the wrapped optimizer. -/
def get_slot (opt : OutfeedOptimizer) (var : Variable) (name : String) : Nat :=
  opt.wrapped_optimizer.getSlot var name

/-- Embeds `OutfeedOptimizer.get_slot_names`: delegates to the wrapped optimizer. -/
def get_slot_names (opt : OutfeedOptimizer) : List String :=
  opt.wrapped_optimizer.getSlotNames

/-- Embeds `OutfeedOptimizer.variables` (named `variablesList` here because `variables` is a
reserved token in Lean 4): delegates to the wrapped optimizer. -/
def variablesList (opt : OutfeedOptimizer) : List Variable :=
  opt.wrapped_optimizer.variablesList

/-! ### Concrete instances used by witness theorems -/

/-- A concrete wrapped optimizer over two variables, used by the witnesses. -/
def wEx : WrappedOptimizer :=
  { computeGradients := fun _ _ =>
      [(GradExpr.base 10, ⟨"weight1"⟩), (GradExpr.base 20, ⟨"bias1"⟩)]
    applyGradients := fun gv step _ =>
      Except.ok (gv.length * 100 + (match step with | some s => s | none => 0))
    getName := "SGD"
    getSlot := fun _ _ => 7
    getSlotNames := ["m"]
    variablesList := [⟨"weight1"⟩, ⟨"bias1"⟩] }

/-- A concrete wrapped optimizer whose apply step always raises an
invalid-argument error, used by the error-propagation witness. -/
def wErrEx : WrappedOptimizer :=
  { computeGradients := fun _ _ => []
    applyGradients := fun _ _ _ => Except.error (OptError.invalidArgument "malformed")
    getName := "SGD"
    getSlot := fun _ _ => 0
    getSlotNames := []
    variablesList := [] }

/-- A fresh queue with no filter: every key passes. -/
def qEx : MaybeOutfeedQueue := { filters := none, vals := [], enqueued := false }

/-- A fresh queue whose filter matches none of `wEx`'s variable names. -/
def qFiltNone : MaybeOutfeedQueue :=
  { filters := some ["xyz"], vals := [], enqueued := false }

/-- An outfeeder over `wEx` in `AFTER_COMPUTE` mode. -/
def optAC : OutfeedOptimizer := OutfeedOptimizer.init wEx .AFTER_COMPUTE "OutfeedOptimizer"

/-- An outfeeder over `wEx` constructed with the default arguments. -/
def optBA : OutfeedOptimizer := OutfeedOptimizer.initDefault wEx

/-- An outfeeder over the always-failing `wErrEx` with the default arguments. -/
def optErr : OutfeedOptimizer := OutfeedOptimizer.initDefault wErrEx

/-! ### Helper lemmas -/

/-- Operation `maybe_outfeed` never changes the queue's filter set. -/
theorem maybe_outfeed_filters (q : MaybeOutfeedQueue) (k : String) (v : GradExpr) :
    (maybe_outfeed q k v).filters = q.filters := by
  unfold maybe_outfeed
  split <;> rfl

/-- Folding offers through `maybe_outfeed` never changes the filter set. -/
theorem foldl_outfeed_filters (offers : List (String × GradExpr)) :
    ∀ q : MaybeOutfeedQueue,
    (List.foldl (fun qq kv => maybe_outfeed qq kv.1 kv.2) q offers).filters = q.filters := by
  induction offers with
  | nil => intro q; rfl
  | cons kv rest ih =>
    intro q
    rw [List.foldl_cons, ih, maybe_outfeed_filters]

/-- Folding offers through `maybe_outfeed` appends, in offer order, exactly those
offered pairs whose keys pass the filter set. -/
theorem foldl_outfeed_vals (offers : List (String × GradExpr)) :
    ∀ q : MaybeOutfeedQueue,
    (List.foldl (fun qq kv => maybe_outfeed qq kv.1 kv.2) q offers).vals
      = q.vals ++ offers.filter (fun kv => keyPassesFilter q.filters kv.1) := by
  induction offers with
  | nil => intro q; simp
  | cons kv rest ih =>
    intro q
    rw [List.foldl_cons, ih]
    by_cases h : keyPassesFilter q.filters kv.1
    · simp [maybe_outfeed, h, maybe_outfeed_filters, List.filter_cons]
    · simp [maybe_outfeed, h, maybe_outfeed_filters, List.filter_cons]

/-- If no offered key passes the filter set, folding through `maybe_outfeed`
leaves the queue unchanged. -/
theorem foldl_outfeed_nomatch (offers : List (String × GradExpr)) :
    ∀ q : MaybeOutfeedQueue,
    (∀ kv ∈ offers, keyPassesFilter q.filters kv.1 = false) →
    List.foldl (fun qq kv => maybe_outfeed qq kv.1 kv.2) q offers = q := by
  induction offers with
  | nil => intro q _; rfl
  | cons kv rest ih =>
    intro q h
    have h1 : keyPassesFilter q.filters kv.1 = false := h kv (List.mem_cons_self _ _)
    have hstep : maybe_outfeed q kv.1 kv.2 = q := by
      unfold maybe_outfeed
      simp [h1]
    rw [List.foldl_cons, hstep]
    exact ih q (fun kv' hm => h kv' (List.mem_cons_of_mem _ hm))

/-- The trace of offers made by `_maybe_enqueue`. -/
theorem maybeEnqueueAll_offers (q : MaybeOutfeedQueue)
    (grads_and_vars : List (GradExpr × Variable)) :
    (maybeEnqueueAll q grads_and_vars).offers
      = grads_and_vars.reverse.map (fun gv => (gv.2.name ++ "_grad", gv.1)) := rfl

/-- Mapping with index-0 replacement over `enumFrom (n+1)` is the identity. -/
theorem enumFrom_map_shift (f : GradExpr → GradExpr) :
    ∀ (l : List (GradExpr × Variable)) (n : Nat),
    (List.enumFrom (n + 1) l).map
        (fun p => (if p.1 = 0 then f p.2.1 else p.2.1, p.2.2)) = l := by
  intro l
  induction l with
  | nil => intro n; rfl
  | cons gv rest ih =>
    intro n
    rw [List.enumFrom_cons, List.map_cons, ih (n + 1)]
    simp

/-- Mapping with index-0 replacement over `enum` replaces exactly the head's
first component. -/
theorem enum_map_first (f : GradExpr → GradExpr) (l : List (GradExpr × Variable)) :
    l.enum.map (fun p => (if p.1 = 0 then f p.2.1 else p.2.1, p.2.2))
      = (match l with
         | [] => []
         | (g, v) :: rest => (f g, v) :: rest) := by
  cases l with
  | nil => rfl
  | cons gv rest =>
    cases gv with
    | mk g v =>
      rw [List.enum_cons, List.map_cons, enumFrom_map_shift f rest 0]
      simp

/-- In `AFTER_COMPUTE` mode, the offers made by `compute_gradients` are those of
`_maybe_enqueue` on the produced pairs. -/
theorem compute_gradients_offers_after (opt : OutfeedOptimizer) (q : MaybeOutfeedQueue)
    (loss : Nat) (var_list : Option (List Variable))
    (h : opt.outfeed_optimizer_mode = OutfeedOptimizerMode.AFTER_COMPUTE) :
    (compute_gradients opt q loss var_list).offers
      = (maybeEnqueueAll q (opt.wrapped_optimizer.computeGradients loss var_list)).offers := by
  unfold compute_gradients
  rw [if_pos h]
  dsimp only
  split <;> rfl

/-- In `AFTER_COMPUTE` mode, the queue state after `compute_gradients` is that
produced by `_maybe_enqueue` on the produced pairs. -/
theorem compute_gradients_queue_after (opt : OutfeedOptimizer) (q : MaybeOutfeedQueue)
    (loss : Nat) (var_list : Option (List Variable))
    (h : opt.outfeed_optimizer_mode = OutfeedOptimizerMode.AFTER_COMPUTE) :
    (compute_gradients opt q loss var_list).queue
      = (maybeEnqueueAll q (opt.wrapped_optimizer.computeGradients loss var_list)).queue := by
  unfold compute_gradients
  rw [if_pos h]
  dsimp only
  split <;> rfl

/-- In `BEFORE_APPLY` mode, `compute_gradients` makes no offers, leaves the queue
untouched, and returns the produced pairs unchanged. -/
theorem compute_gradients_before_apply (opt : OutfeedOptimizer) (q : MaybeOutfeedQueue)
    (loss : Nat) (var_list : Option (List Variable))
    (h : opt.outfeed_optimizer_mode = OutfeedOptimizerMode.BEFORE_APPLY) :
    compute_gradients opt q loss var_list
      = { grads_and_vars := opt.wrapped_optimizer.computeGradients loss var_list
          queue := q
          offers := [] } := by
  unfold compute_gradients
  rw [if_neg (by rw [h]; intro hc; cases hc)]

/-- In `BEFORE_APPLY` mode, the offers made by `apply_gradients` are those of
`_maybe_enqueue` on the given pairs, and its queue state is the post-commit one. -/
theorem apply_gradients_offers_queue_before (opt : OutfeedOptimizer) (q : MaybeOutfeedQueue)
    (grads_and_vars : List (GradExpr × Variable)) (global_step : Option Nat)
    (name : Option String)
    (h : opt.outfeed_optimizer_mode = OutfeedOptimizerMode.BEFORE_APPLY) :
    (apply_gradients opt q grads_and_vars global_step name).offers
        = (maybeEnqueueAll q grads_and_vars).offers
    ∧ (apply_gradients opt q grads_and_vars global_step name).queue
        = (maybeEnqueueAll q grads_and_vars).queue := by
  unfold apply_gradients
  rw [if_pos h]
  dsimp only
  constructor <;> (split <;> rfl)

/-- In `AFTER_COMPUTE` mode, `apply_gradients` makes no offers, leaves the queue
untouched, and delegates directly with no control dependencies. -/
theorem apply_gradients_after_compute (opt : OutfeedOptimizer) (q : MaybeOutfeedQueue)
    (grads_and_vars : List (GradExpr × Variable)) (global_step : Option Nat)
    (name : Option String)
    (h : opt.outfeed_optimizer_mode = OutfeedOptimizerMode.AFTER_COMPUTE) :
    apply_gradients opt q grads_and_vars global_step name
      = { res := (opt.wrapped_optimizer.applyGradients grads_and_vars global_step name).map
            (fun a => { action := a, ctrlDeps := [] })
          queue := q
          offers := [] } := by
  unfold apply_gradients
  rw [if_neg (by rw [h]; intro hc; cases hc)]

/-! ### Claim theorems -/

/-- C1: For every valid list of (gradient, variable) pairs, every optional step counter,
and both outfeed modes, the value returned by the outfeeder's `apply_gradients` (its
update action, including the optional step increment, both encoded in the wrapped
optimizer's result) equals the value obtained by calling the wrapped optimizer's
`apply_gradients` directly on the same arguments, whether or not the queue accepted
any gradients. -/
theorem apply_result_equals_wrapped_apply (opt : OutfeedOptimizer) (q : MaybeOutfeedQueue)
    (grads_and_vars : List (GradExpr × Variable)) (global_step : Option Nat)
    (name : Option String) :
    Except.map TrainOp.action (apply_gradients opt q grads_and_vars global_step name).res
      = opt.wrapped_optimizer.applyGradients grads_and_vars global_step name := by
  have hmap : ∀ (e : Except OptError Nat) (d : List (List (String × GradExpr))),
      Except.map TrainOp.action (Except.map (fun a => TrainOp.mk a d) e) = e := by
    intro e d
    cases e <;> rfl
  unfold apply_gradients
  split
  · dsimp only
    split <;> exact hmap _ _
  · exact hmap _ _

/-- C2: whenever the outfeeder offers candidates to the queue (`_maybe_enqueue`, called
from `compute_gradients` in after-compute mode and from `apply_gradients` in before-apply
mode), the sequence of keys offered equals the reverse of the input pairs' variable
names, each with the fixed suffix `_grad` appended, with every pair offered
unconditionally — for every filter configuration of the queue. -/
theorem offered_keys_reverse_suffixed (opt : OutfeedOptimizer) (q : MaybeOutfeedQueue)
    (loss : Nat) (var_list : Option (List Variable))
    (grads_and_vars : List (GradExpr × Variable)) (global_step : Option Nat)
    (nm : Option String) :
    (maybeEnqueueAll q grads_and_vars).offers.map Prod.fst
        = grads_and_vars.reverse.map (fun p => p.2.name ++ "_grad")
    ∧ (opt.outfeed_optimizer_mode = OutfeedOptimizerMode.AFTER_COMPUTE →
        (compute_gradients opt q loss var_list).offers.map Prod.fst
          = (opt.wrapped_optimizer.computeGradients loss var_list).reverse.map
              (fun p => p.2.name ++ "_grad"))
    ∧ (opt.outfeed_optimizer_mode = OutfeedOptimizerMode.BEFORE_APPLY →
        (apply_gradients opt q grads_and_vars global_step nm).offers.map Prod.fst
          = grads_and_vars.reverse.map (fun p => p.2.name ++ "_grad")) := by
  have key : ∀ (q' : MaybeOutfeedQueue) (l : List (GradExpr × Variable)),
      (maybeEnqueueAll q' l).offers.map Prod.fst
        = l.reverse.map (fun p => p.2.name ++ "_grad") := by
    intro q' l
    rw [maybeEnqueueAll_offers, List.map_map]
    rfl
  refine ⟨key q grads_and_vars, fun h => ?_, fun h => ?_⟩
  · rw [compute_gradients_offers_after opt q loss var_list h]
    exact key q _
  · rw [(apply_gradients_offers_queue_before opt q grads_and_vars global_step nm h).1]
    exact key q grads_and_vars

/-- Witness for C2 at a concrete instance: two variables `weight1`, `bias1`;
the offered keys are `bias1_grad` then `weight1_grad`, in both interception points. -/
theorem offered_keys_reverse_suffixed_witness :
    (maybeEnqueueAll qEx (wEx.computeGradients 0 none)).offers.map Prod.fst
        = ["bias1_grad", "weight1_grad"]
    ∧ (compute_gradients optAC qEx 0 none).offers.map Prod.fst
        = ["bias1_grad", "weight1_grad"]
    ∧ (apply_gradients optBA qEx (wEx.computeGradients 0 none) (some 5) none).offers.map
        Prod.fst = ["bias1_grad", "weight1_grad"] := by
  have h1 := offered_keys_reverse_suffixed optAC qEx 0 none (wEx.computeGradients 0 none)
    (some 5) none
  have h2 := offered_keys_reverse_suffixed optBA qEx 0 none (wEx.computeGradients 0 none)
    (some 5) none
  exact ⟨h1.1.trans (by rfl), (h1.2.1 rfl).trans (by rfl), (h2.2.2 rfl).trans (by rfl)⟩

/-- C8: each of the four accessor operations (`get_name`, `get_slot`,
`get_slot_names`, `variables`) returns exactly what the corresponding accessor of the
wrapped optimizer returns for the same arguments, consulting no state of the wrapper. -/
theorem accessors_delegate_to_wrapped (opt : OutfeedOptimizer) (v : Variable)
    (s : String) :
    get_name opt = opt.wrapped_optimizer.getName
    ∧ get_slot opt v s = opt.wrapped_optimizer.getSlot v s
    ∧ get_slot_names opt = opt.wrapped_optimizer.getSlotNames
    ∧ variablesList opt = opt.wrapped_optimizer.variablesList :=
  ⟨rfl, rfl, rfl, rfl⟩

/-- C9: an instance constructed without an explicit mode argument has mode
`BEFORE_APPLY`; its `compute_gradients` never offers to the queue (and leaves the queue
untouched), while its `apply_gradients` performs the full offer/commit sequence of
`_maybe_enqueue`. -/
theorem default_mode_is_before_apply (w : WrappedOptimizer) (q : MaybeOutfeedQueue)
    (loss : Nat) (var_list : Option (List Variable))
    (grads_and_vars : List (GradExpr × Variable)) (global_step : Option Nat)
    (nm : Option String) :
    (OutfeedOptimizer.initDefault w).outfeed_optimizer_mode
        = OutfeedOptimizerMode.BEFORE_APPLY
    ∧ (compute_gradients (OutfeedOptimizer.initDefault w) q loss var_list).offers = []
    ∧ (compute_gradients (OutfeedOptimizer.initDefault w) q loss var_list).queue = q
    ∧ (apply_gradients (OutfeedOptimizer.initDefault w) q grads_and_vars global_step
        nm).offers = (maybeEnqueueAll q grads_and_vars).offers
    ∧ (apply_gradients (OutfeedOptimizer.initDefault w) q grads_and_vars global_step
        nm).queue = (maybeEnqueueAll q grads_and_vars).queue := by
  have hmode : (OutfeedOptimizer.initDefault w).outfeed_optimizer_mode
      = OutfeedOptimizerMode.BEFORE_APPLY := rfl
  have hc := compute_gradients_before_apply (OutfeedOptimizer.initDefault w) q loss
    var_list hmode
  have ha := apply_gradients_offers_queue_before (OutfeedOptimizer.initDefault w) q
    grads_and_vars global_step nm hmode
  exact ⟨hmode, by rw [hc], by rw [hc], ha.1, ha.2⟩

/-- C3: in after-compute mode, if the queue's commit operation accepted at least one
offered value, `compute_gradients` returns the produced sequence with only its first
gradient replaced by a pass-through identity of that gradient carrying a dependency on
the executed commit; every other (gradient, variable) pair passes through unchanged,
and the numerical values of all gradients are preserved. -/
theorem after_compute_commit_wraps_first_gradient (opt : OutfeedOptimizer)
    (q : MaybeOutfeedQueue) (loss : Nat) (var_list : Option (List Variable))
    (enq : List (String × GradExpr))
    (hmode : opt.outfeed_optimizer_mode = OutfeedOptimizerMode.AFTER_COMPUTE)
    (henq : (maybeEnqueueAll q (opt.wrapped_optimizer.computeGradients loss
        var_list)).enqueueOp = some enq) :
    (compute_gradients opt q loss var_list).grads_and_vars
      = (match opt.wrapped_optimizer.computeGradients loss var_list with
         | [] => []
         | (g, v) :: rest => (GradExpr.identDep g enq, v) :: rest)
    ∧ (compute_gradients opt q loss var_list).grads_and_vars.map
        (fun p => (gradValue p.1, p.2))
      = (opt.wrapped_optimizer.computeGradients loss var_list).map
          (fun p => (gradValue p.1, p.2)) := by
  have hgv : (compute_gradients opt q loss var_list).grads_and_vars
      = (opt.wrapped_optimizer.computeGradients loss var_list).enum.map
          (fun p => (if p.1 = 0 then GradExpr.identDep p.2.1 enq else p.2.1, p.2.2)) := by
    unfold compute_gradients
    rw [if_pos hmode]
    dsimp only
    rw [henq]
  rw [hgv, enum_map_first (fun x => GradExpr.identDep x enq)]
  refine ⟨rfl, ?_⟩
  cases opt.wrapped_optimizer.computeGradients loss var_list with
  | nil => rfl
  | cons gv rest =>
    cases gv with
    | mk g v => simp [gradValue]

/-- Witness for C3: with no filter set, commit accepts both gradients and the first
returned gradient is the identity wrapper carrying the committed dictionary. -/
theorem after_compute_commit_wraps_first_gradient_witness :
    (compute_gradients optAC qEx 0 none).grads_and_vars
      = [(GradExpr.identDep (GradExpr.base 10)
            [("bias1_grad", GradExpr.base 20), ("weight1_grad", GradExpr.base 10)],
          ⟨"weight1"⟩),
         (GradExpr.base 20, ⟨"bias1"⟩)] := by
  have h := after_compute_commit_wraps_first_gradient optAC qEx 0 none
    [("bias1_grad", GradExpr.base 20), ("weight1_grad", GradExpr.base 10)] rfl rfl
  exact h.1.trans (by rfl)

/-- C4: in after-compute mode, if the queue starts empty and its filter matches none of
the offered keys, the commit indicates nothing was accepted and `compute_gradients`
returns the very sequence produced by the wrapped optimizer, with no wrapping. -/
theorem after_compute_no_filter_match_returns_original (opt : OutfeedOptimizer)
    (q : MaybeOutfeedQueue) (loss : Nat) (var_list : Option (List Variable))
    (hmode : opt.outfeed_optimizer_mode = OutfeedOptimizerMode.AFTER_COMPUTE)
    (hempty : q.vals = [])
    (hnomatch : ∀ p ∈ opt.wrapped_optimizer.computeGradients loss var_list,
        keyPassesFilter q.filters (p.2.name ++ "_grad") = false) :
    (maybeEnqueueAll q (opt.wrapped_optimizer.computeGradients loss
        var_list)).enqueueOp = none
    ∧ (compute_gradients opt q loss var_list).grads_and_vars
        = opt.wrapped_optimizer.computeGradients loss var_list := by
  have hoffers : ∀ kv ∈ (opt.wrapped_optimizer.computeGradients loss
      var_list).reverse.map (fun gv => (gv.2.name ++ "_grad", gv.1)),
      keyPassesFilter q.filters kv.1 = false := by
    intro kv hkv
    rcases List.mem_map.mp hkv with ⟨p, hp, rfl⟩
    exact hnomatch p (List.mem_reverse.mp hp)
  have hfold : List.foldl (fun qq kv => maybe_outfeed qq kv.1 kv.2) q
      ((opt.wrapped_optimizer.computeGradients loss var_list).reverse.map
        (fun gv => (gv.2.name ++ "_grad", gv.1))) = q :=
    foldl_outfeed_nomatch _ q hoffers
  have henq : (maybeEnqueueAll q (opt.wrapped_optimizer.computeGradients loss
      var_list)).enqueueOp = none := by
    unfold maybeEnqueueAll
    dsimp only
    rw [hfold]
    unfold maybe_enqueue
    rw [hempty]
    rfl
  refine ⟨henq, ?_⟩
  unfold compute_gradients
  rw [if_pos hmode]
  dsimp only
  rw [henq]

/-- Witness for C4: with filter `{"xyz"}` nothing is accepted and `compute_gradients`
returns the wrapped optimizer's pairs unchanged. -/
theorem after_compute_no_filter_match_returns_original_witness :
    (maybeEnqueueAll qFiltNone (wEx.computeGradients 0 none)).enqueueOp = none
    ∧ (compute_gradients optAC qFiltNone 0 none).grads_and_vars
        = wEx.computeGradients 0 none := by
  exact after_compute_no_filter_match_returns_original optAC qFiltNone 0 none rfl rfl
    (by decide)

/-- C5: exactly one of the two interception points is active per instance — in
after-compute mode `apply_gradients` never offers and leaves the queue untouched, in
before-apply mode `compute_gradients` never offers and leaves the queue untouched, and
the two points never both offer.  (Mode immutability and statelessness beyond the fixed
configuration are structural in this embedding: `OutfeedOptimizer` holds only the three
construction-time fields and no method produces a modified `OutfeedOptimizer`.) -/
theorem mode_fixed_single_interception (opt : OutfeedOptimizer)
    (q q' : MaybeOutfeedQueue) (loss : Nat) (var_list : Option (List Variable))
    (grads_and_vars : List (GradExpr × Variable)) (global_step : Option Nat)
    (nm : Option String) :
    (opt.outfeed_optimizer_mode = OutfeedOptimizerMode.AFTER_COMPUTE →
        (apply_gradients opt q' grads_and_vars global_step nm).offers = []
        ∧ (apply_gradients opt q' grads_and_vars global_step nm).queue = q')
    ∧ (opt.outfeed_optimizer_mode = OutfeedOptimizerMode.BEFORE_APPLY →
        (compute_gradients opt q loss var_list).offers = []
        ∧ (compute_gradients opt q loss var_list).queue = q)
    ∧ ¬((compute_gradients opt q loss var_list).offers ≠ []
        ∧ (apply_gradients opt q' grads_and_vars global_step nm).offers ≠ []) := by
  refine ⟨fun h => ?_, fun h => ?_, fun hc => ?_⟩
  · rw [apply_gradients_after_compute opt q' grads_and_vars global_step nm h]
    exact ⟨rfl, rfl⟩
  · rw [compute_gradients_before_apply opt q loss var_list h]
    exact ⟨rfl, rfl⟩
  · cases hm : opt.outfeed_optimizer_mode with
    | AFTER_COMPUTE =>
      exact hc.2 (by
        rw [apply_gradients_after_compute opt q' grads_and_vars global_step nm hm])
    | BEFORE_APPLY =>
      exact hc.1 (by
        rw [compute_gradients_before_apply opt q loss var_list hm])

/-- Witness for C5: on the concrete instances, the inactive interception point of each
mode makes no offers. -/
theorem mode_fixed_single_interception_witness :
    (apply_gradients optAC qEx (wEx.computeGradients 0 none) (some 5) none).offers = []
    ∧ (compute_gradients optBA qEx 0 none).offers = [] := by
  have h1 := mode_fixed_single_interception optAC qEx qEx 0 none
    (wEx.computeGradients 0 none) (some 5) none
  have h2 := mode_fixed_single_interception optBA qEx qEx 0 none
    (wEx.computeGradients 0 none) (some 5) none
  exact ⟨(h1.1 rfl).1, (h2.2.1 rfl).1⟩

/-- C6: the operations are sequenced offer-all, then commit, then gate, then delegate:
the commit's payload is the queue's prior contents followed by exactly the filtered
suffix of the complete offer sequence (so every offer precedes the single commit); in
before-apply mode a successful commit gates the wrapped apply step with a control
dependency on the commit (and a failed commit delegates directly); in after-compute
mode a successful commit gates the returned sequence through the identity wrapper on
its first gradient. -/
theorem offer_commit_gate_delegate_sequencing (opt : OutfeedOptimizer)
    (q : MaybeOutfeedQueue) (grads_and_vars : List (GradExpr × Variable))
    (global_step : Option Nat) (nm : Option String) (loss : Nat)
    (var_list : Option (List Variable)) :
    (∀ enq, (maybeEnqueueAll q grads_and_vars).enqueueOp = some enq →
        enq = q.vals ++ (maybeEnqueueAll q grads_and_vars).offers.filter
            (fun kv => keyPassesFilter q.filters kv.1))
    ∧ (opt.outfeed_optimizer_mode = OutfeedOptimizerMode.BEFORE_APPLY →
        ∀ enq, (maybeEnqueueAll q grads_and_vars).enqueueOp = some enq →
        (apply_gradients opt q grads_and_vars global_step nm).res
          = Except.map (fun a => TrainOp.mk a [enq])
              (opt.wrapped_optimizer.applyGradients grads_and_vars global_step nm))
    ∧ (opt.outfeed_optimizer_mode = OutfeedOptimizerMode.BEFORE_APPLY →
        (maybeEnqueueAll q grads_and_vars).enqueueOp = none →
        (apply_gradients opt q grads_and_vars global_step nm).res
          = Except.map (fun a => TrainOp.mk a [])
              (opt.wrapped_optimizer.applyGradients grads_and_vars global_step nm))
    ∧ (opt.outfeed_optimizer_mode = OutfeedOptimizerMode.AFTER_COMPUTE →
        ∀ enq g v rest,
        (maybeEnqueueAll q (opt.wrapped_optimizer.computeGradients loss
            var_list)).enqueueOp = some enq →
        opt.wrapped_optimizer.computeGradients loss var_list = (g, v) :: rest →
        (compute_gradients opt q loss var_list).grads_and_vars
          = (GradExpr.identDep g enq, v) :: rest) := by
  refine ⟨fun enq henq => ?_, fun h enq henq => ?_, fun h henq => ?_,
    fun h enq g v rest henq hl => ?_⟩
  · have hvals := foldl_outfeed_vals
      (grads_and_vars.reverse.map (fun gv => (gv.2.name ++ "_grad", gv.1))) q
    unfold maybeEnqueueAll at henq
    dsimp only at henq
    unfold maybe_enqueue at henq
    split at henq
    · cases henq
    · injection henq with h'
      rw [← h', maybeEnqueueAll_offers]
      exact hvals
  · unfold apply_gradients
    rw [if_pos h]
    dsimp only
    rw [henq]
  · unfold apply_gradients
    rw [if_pos h]
    dsimp only
    rw [henq]
  · unfold compute_gradients
    rw [if_pos h]
    dsimp only
    rw [henq]
    dsimp only
    rw [enum_map_first (fun x => GradExpr.identDep x enq), hl]

/-- Witness for C6 at the end-to-end instance: before-apply mode, no filter, both
gradients committed; the returned apply op is gated on the commit's dictionary and
carries the wrapped optimizer's action. -/
theorem offer_commit_gate_delegate_sequencing_witness :
    (apply_gradients optBA qEx (wEx.computeGradients 0 none) (some 5) none).res
      = Except.ok ⟨205, [[("bias1_grad", GradExpr.base 20),
          ("weight1_grad", GradExpr.base 10)]]⟩ := by
  have h := offer_commit_gate_delegate_sequencing optBA qEx
    (wEx.computeGradients 0 none) (some 5) none 0 none
  have h2 := h.2.1 rfl
    [("bias1_grad", GradExpr.base 20), ("weight1_grad", GradExpr.base 10)] rfl
  exact h2.trans (by rfl)

/-- C7: the outfeeder adds no validation and no recovery of its own — its
`apply_gradients` fails exactly when the wrapped optimizer's apply step fails, with the
very same (invalid-argument-class) error propagated unchanged to the caller. -/
theorem apply_errors_propagate_unchanged (opt : OutfeedOptimizer)
    (q : MaybeOutfeedQueue) (grads_and_vars : List (GradExpr × Variable))
    (global_step : Option Nat) (nm : Option String) (e : OptError) :
    (apply_gradients opt q grads_and_vars global_step nm).res = Except.error e
      ↔ opt.wrapped_optimizer.applyGradients grads_and_vars global_step nm
          = Except.error e := by
  have key : ∀ (x : Except OptError Nat) (d : List (List (String × GradExpr))),
      Except.map (fun a => TrainOp.mk a d) x = Except.error e ↔ x = Except.error e := by
    intro x d
    cases x <;> simp [Except.map]
  unfold apply_gradients
  split
  · dsimp only
    split <;> exact key _ _
  · exact key _ _

/-- Witness for C7: a wrapped optimizer whose apply step raises an invalid-argument
error on malformed pairs; the outfeeder surfaces the identical error. -/
theorem apply_errors_propagate_unchanged_witness :
    (apply_gradients optErr qEx [] none none).res
      = Except.error (OptError.invalidArgument "malformed") :=
  (apply_errors_propagate_unchanged optErr qEx [] none none
    (OptError.invalidArgument "malformed")).mpr rfl

/-- C10: the `name` argument passed to the constructor (default `"OutfeedOptimizer"`)
never affects `get_name`: for every wrapped optimizer, every mode and every name
argument, `get_name` returns the wrapped optimizer's own name. -/
theorem constructor_name_does_not_affect_get_name (w : WrappedOptimizer)
    (mode : OutfeedOptimizerMode) (nm : String) :
    get_name (OutfeedOptimizer.init w mode nm) = w.getName
    ∧ get_name (OutfeedOptimizer.initDefault w) = w.getName :=
  ⟨rfl, rfl⟩

end GcOutfeed
